import Mathlib

/-
Verification of the remote-job orchestration core of the ad-creative
generation service (backend/services/creativeService.js).

The JavaScript source is shallowly embedded: pure string manipulation is
translated to executable Lean functions over List Char, remote I/O is
abstracted into environment records holding the scripted outcomes of each
remote call, and the mutable temp directory is threaded as an explicit list
of file paths.  Machine integers do not occur (all counters are small Nats).
Line references below are to backend/services/creativeService.js.
-/

/-- Decidable equality for `Except`, needed to evaluate the embedded
fallible operations on concrete inputs. -/
instance exceptDecEq {ε α : Type} [DecidableEq ε] [DecidableEq α] :
    DecidableEq (Except ε α) := fun a b =>
  match a, b with
  | .ok x, .ok y =>
    if h : x = y then .isTrue (by rw [h]) else .isFalse (by simp [h])
  | .error x, .error y =>
    if h : x = y then .isTrue (by rw [h]) else .isFalse (by simp [h])
  | .ok _, .error _ => .isFalse (by simp)
  | .error _, .ok _ => .isFalse (by simp)

namespace CreativeService

/-- One entry of the `outputs` array of a poll result
(creativeService.js line 748).  In JS an entry is an arbitrary JSON value;
the code tests `typeof imageUrl === 'string'`, so the embedding keeps a
string constructor and a catch-all constructor for non-string entries. -/
inductive Output where
  | str (s : String)
  | nonStr
deriving DecidableEq

/-- Mirrors the JavaScript `s.startsWith(pat)` test on strings,
computed over the underlying character lists. -/
def strStarts (pat s : String) : Bool :=
  pat.data.isPrefixOf s.data

/-- Mirrors `imageUrl.split(',')[1]` used to cut the base64 payload out of a
`data:` URI (line 761): the segment strictly between the first comma and the
second comma or end of string. -/
def dataUriPayload (s : String) : String :=
  String.mk (((s.data.dropWhile (fun c => !(c == ','))).drop 1).takeWhile
    (fun c => !(c == ',')))

/-- The effective payload of one successful status-poll response
(lines 740-748).  The code extracts `resultData.data?.status ||
resultData.status`, `resultData.data?.outputs || resultData.outputs || []`
and `resultData.data?.error || resultData.error`; the embedding records the
already-extracted values. -/
structure PollPayload where
  status : String
  outputs : List Output
  errMsg : Option String
deriving DecidableEq

/-- Outcome of one `axios.get(pollUrl)` status request (lines 734-738):
either an HTTP error carrying a response with a status code, a transport
error carrying no response object, or a parsed JSON payload. -/
inductive PollResponse where
  | httpError (status : Nat) (msg : String)
  | transportError (msg : String)
  | ok (p : PollPayload)
deriving DecidableEq

/-- Terminal outcome of the polling loop.  `failed` carries the thrown error
message and, when the throw was a rethrown axios error that had a response
object, its HTTP status (this determines how the outer catch at line 822
wraps the message).  `timedOut` is the distinct exhaustion outcome thrown at
line 794. -/
inductive PollResult where
  | succeeded (bytes : List Nat)
  | failed (msg : String) (respStatus : Option Nat)
  | timedOut
deriving DecidableEq

/-- `maxAttempts` constant of the poll loop (line 726). -/
def maxAttempts : Nat := 60

/-- `pollInterval` constant, milliseconds between polls (line 727). -/
def pollInterval : Nat := 2000

/-- The body of the polling loop of `generateImageViaRouterImageToImage`
(lines 729-792), as a recursion over the remaining attempt budget.
`responses` scripts the outcome of the status request made at each attempt
index, `fetch` resolves an http(s) output URL to raw bytes (the
`axios.get(imageUrl)` at line 757, modelled as total), and `decode` is the
base64 decoding of an inline payload (line 762).  The second component of
the result counts the poll attempts actually performed.  Branches, in
source order: terminal status completed/succeeded with first output an
http URL or a data URI (or the hard errors for an empty outputs array and a
non-string or unrecognized first output), terminal status failed/error, any
other status falls through and polls again; a request error with HTTP
status 404 or 401 or at least 500 continues the loop, any other request
error is rethrown. -/
def pollForResult (fetch : String → List Nat) (decode : String → List Nat)
    (responses : Nat → PollResponse) : Nat → Nat → PollResult × Nat
  | _, 0 => (.timedOut, 0)
  | attempt, n + 1 =>
    match responses attempt with
    | .ok p =>
      if p.status = "completed" ∨ p.status = "succeeded" then
        match p.outputs with
        | [] => (.failed "Job completed but outputs array is empty" none, 1)
        | .str s :: _ =>
          if strStarts "http" s then (.succeeded (fetch s), 1)
          else if strStarts "data:" s then
            (.succeeded (decode (dataUriPayload s)), 1)
          else (.failed "Unexpected image format in outputs" none, 1)
        | .nonStr :: _ => (.failed "Unexpected image format in outputs" none, 1)
      else if p.status = "failed" ∨ p.status = "error" then
        (.failed ("Image generation job failed: " ++
          (match p.errMsg with
           | some e => if e = "" then "Job failed" else e
           | none => "Job failed")) none, 1)
      else
        let r := pollForResult fetch decode responses (attempt + 1) n
        (r.1, r.2 + 1)
    | .httpError st msg =>
      if st = 404 ∨ st = 401 then
        let r := pollForResult fetch decode responses (attempt + 1) n
        (r.1, r.2 + 1)
      else if 500 ≤ st then
        let r := pollForResult fetch decode responses (attempt + 1) n
        (r.1, r.2 + 1)
      else (.failed msg (some st), 1)
    | .transportError msg => (.failed msg none, 1)

/-- The whole polling phase for a created job: 60 attempts starting at
attempt index 0 (lines 726-729). -/
def pollForJob (fetch : String → List Nat) (decode : String → List Nat)
    (responses : Nat → PollResponse) : PollResult × Nat :=
  pollForResult fetch decode responses 0 maxAttempts

/-- A poll response on which the loop body exits (successfully or by
throwing) instead of proceeding to the next attempt.  Derived from the
branch structure of the loop: an HTTP error other than 404/401/5xx, any
transport error, or a payload whose status is one of the four recognized
terminal strings. -/
def isTerminalResponse : PollResponse → Bool
  | .httpError st _ =>
    !(decide (st = 404) || decide (st = 401) || decide (500 ≤ st))
  | .transportError _ => true
  | .ok p =>
    decide (p.status = "completed" ∨ p.status = "succeeded") ||
    decide (p.status = "failed" ∨ p.status = "error")

/-- Resolution of every entry of an outputs list, written from the words of
the specification for comparison with the code (spec 4.4: on success
"resolve each output entry which may be an http(s) URL (fetch it) or an
inline data payload (decode it) into raw bytes").  The code itself resolves
only the first entry; this definition is the one the specification
describes and is used to exhibit that difference. -/
def specResolveEachOutput (fetch : String → List Nat)
    (decode : String → List Nat) (outs : List Output) : List (List Nat) :=
  outs.map fun o =>
    match o with
    | .str s =>
      if strStarts "http" s then fetch s
      else if strStarts "data:" s then decode (dataUriPayload s)
      else []
    | .nonStr => []

/-- Shape of the submission response of the wavespeed edit request
(lines 697-821): an axios error carrying an HTTP response, an axios error
without a response object, the async-job format (`responseData.data.id`
present, line 718), a data object without an id but with an outputs array
(line 798), a raw binary body (line 817), or anything else (line 821). -/
inductive SubmitResponse where
  | httpError (status : Nat) (msg : String)
  | transportError (msg : String)
  | jobCreated (jobId : String)
  | dataOutputs (outputs : List Output)
  | rawBuffer (bytes : List Nat)
  | unexpected

/-- Scripted outcomes of every remote interaction one image-generation call
can perform.  `t2iResult` scripts what the text-to-image helper
`generateImageViaRouterTextToImage` (lines 849-938) would return; the
current `generateImage` never invokes it, which the theorems exploit. -/
structure ImageGenEnv where
  submit : SubmitResponse
  poll : Nat → PollResponse
  fetch : String → List Nat
  decode : String → List Nat
  t2iResult : Except String (List Nat)

/-- The synchronous-response branch of
`generateImageViaRouterImageToImage` (lines 798-821): a non-job data object
whose `outputs[0]` is a string is decoded (`data:` checked before `http`,
the reverse of the poll branch); everything else falls through to the
buffer check and then to the unexpected-format throw.  The code appends a
JSON dump of the response to the message; the dump is not modelled. -/
def submitSyncExtract (fetch : String → List Nat) (decode : String → List Nat)
    (outs : List Output) : Except String (List Nat) :=
  match outs with
  | .str s :: _ =>
    if strStarts "data:" s then .ok (decode (dataUriPayload s))
    else if strStarts "http" s then .ok (fetch s)
    else .error "Unexpected response format"
  | _ => .error "Unexpected response format"

/-- `generateImageViaRouterImageToImage` (lines 685-843): submit the edit
request, then either poll the created job or decode a synchronous response.
Errors thrown inside the body are filtered by the catch at line 822: an
error carrying an HTTP response is rewrapped as
`ImageToImage failed (status): msg`, any other error is rethrown
unchanged. -/
def generateImageViaRouterImageToImage (env : ImageGenEnv) :
    Except String (List Nat) :=
  match env.submit with
  | .httpError st msg =>
    .error ("ImageToImage failed (" ++ toString st ++ "): " ++ msg)
  | .transportError msg => .error msg
  | .jobCreated _ =>
    match (pollForJob env.fetch env.decode env.poll).1 with
    | .succeeded b => .ok b
    | .failed m none => .error m
    | .failed m (some st) =>
      .error ("ImageToImage failed (" ++ toString st ++ "): " ++ m)
    | .timedOut =>
      .error "Image generation timed out - job did not complete within expected time"
  | .dataOutputs outs => submitSyncExtract env.fetch env.decode outs
  | .rawBuffer b => .ok b
  | .unexpected => .error "Unexpected response format"

/-- Mirrors the JavaScript `s.includes(pat)` substring test. -/
def hasSubstr (pat : List Char) : List Char → Bool
  | [] => pat.isEmpty
  | c :: rest => pat.isPrefixOf (c :: rest) || hasSubstr pat rest

/-- `s.includes(pat)` on strings. -/
def jsIncludes (s pat : String) : Bool :=
  hasSubstr pat.data s.data

/-- The catch of `generateImage` (lines 665-678).  The errors reaching it
are plain Error objects produced by the inner helper, so the
`error.response?.status` tests are undefined and only the message-substring
tests remain: a message mentioning quota yields the quota message, one
mentioning 402 yields the payment message, anything else is wrapped as
`Image generation failed: msg`. -/
def wrapImageGenError (msg : String) : String :=
  if jsIncludes msg "quota" then
    "HuggingFace API quota exceeded. Please check your API key limits."
  else if jsIncludes msg "402" then
    "Payment required: The wavespeed provider requires credits. Please add credits to your HuggingFace account at https://huggingface.co/settings/billing, or use a free alternative model."
  else "Image generation failed: " ++ msg

/-- `generateImage` (lines 652-679): a missing product buffer throws
`Product image is required for image generation` before any remote call;
otherwise the image-to-image helper runs and its error, if any, is wrapped
by the catch. -/
def generateImage (env : ImageGenEnv) (prompt : String)
    (productBuffer : Option (List Nat)) : Except String (List Nat) :=
  match productBuffer with
  | none =>
    .error (wrapImageGenError "Product image is required for image generation")
  | some _ =>
    match generateImageViaRouterImageToImage env with
    | .ok b => .ok b
    | .error e => .error (wrapImageGenError e)

/-- Whitespace class trimmed by JavaScript `String.prototype.trim`
(restricted to the ASCII whitespace actually reachable here). -/
def isJsSpace (c : Char) : Bool :=
  c == ' ' || c == '\t' || c == '\n' || c == '\r'

/-- JavaScript `s.trim()` over a character list. -/
def jsTrim (l : List Char) : List Char :=
  ((l.dropWhile isJsSpace).reverse.dropWhile isJsSpace).reverse

/-- Scan for the closing delimiter of a non-greedy single-line regex match:
returns the characters after the first `closeC`, failing on a newline or
end of input first (the regex dot does not match a newline). -/
def findClose (closeC : Char) : List Char → Option (List Char)
  | [] => none
  | c :: rest =>
    if c == closeC then some rest
    else if c == '\n' then none
    else findClose closeC rest

/-- One global non-greedy replacement pass such as
`replace(/\[.*?\]/g, '')` (lines 987-988): at each opening delimiter, if a
closing delimiter occurs before the next newline the whole bracketed
segment is dropped and scanning resumes after it, otherwise the opener is
kept.  The fuel argument only bounds the recursion; every step consumes at
least one character, so `fuel = length` never runs out. -/
def stripDelimsFuel (openC closeC : Char) : Nat → List Char → List Char
  | 0, l => l
  | _ + 1, [] => []
  | fuel + 1, c :: rest =>
    if c == openC then
      match findClose closeC rest with
      | some rest2 => stripDelimsFuel openC closeC fuel rest2
      | none => c :: stripDelimsFuel openC closeC fuel rest
    else c :: stripDelimsFuel openC closeC fuel rest

/-- Removal of all non-greedy `openC ... closeC` segments. -/
def stripDelims (openC closeC : Char) (l : List Char) : List Char :=
  stripDelimsFuel openC closeC l.length l

/-- `replace(/\n+/g, ' ')` (line 989): every maximal run of newlines
becomes a single space.  The boolean records whether the previous character
was part of a newline run. -/
def collapseNLAux : Bool → List Char → List Char
  | _, [] => []
  | inRun, c :: rest =>
    if c == '\n' then
      if inRun then collapseNLAux true rest
      else ' ' :: collapseNLAux true rest
    else c :: collapseNLAux false rest

/-- The caption cleanup chain of `generateCaption` (lines 983-990):
trim, drop `[...]` segments, drop `(...)` segments, collapse newline runs
to single spaces, trim again. -/
def cleanCaption (content : String) : String :=
  let cs := jsTrim content.data
  let cs := stripDelims '[' ']' cs
  let cs := stripDelims '(' ')' cs
  let cs := collapseNLAux false cs
  String.mk (jsTrim cs)

/-- Static caption used when the cleaned response text is empty
(line 992). -/
def fallbackCaptionEmpty : String := "Discover our amazing product today!"

/-- Static caption used when the chat-completion request throws
(line 996). -/
def fallbackCaptionError : String :=
  "Experience the difference with our premium product. Shop now and transform your lifestyle today!"

/-- `generateCaption` (lines 943-998).  `chatContent` is the
`choices[0].message.content` string of a successful chat-completion
response; `none` stands for any throw inside the try block (failed request
or missing response fields), which the catch converts to the static
fallback.  An empty cleaned caption is falsy in `caption || fallback`, so
the other static string is returned in that case. -/
def generateCaption (chatContent : Option String) : String :=
  match chatContent with
  | none => fallbackCaptionError
  | some content =>
    let caption := cleanCaption content
    if caption = "" then fallbackCaptionEmpty else caption

/-- Style table of `generateImagePrompt` (lines 605-618). -/
def promptStyles : List String :=
  ["modern minimalist design with clean lines and white space",
   "vibrant and colorful with bold typography and dynamic layouts",
   "elegant and sophisticated with premium feel and luxury aesthetics",
   "playful and energetic with dynamic composition and bright colors",
   "professional corporate style with subtle branding and clean design",
   "artistic and creative with unique visual elements and creative typography",
   "luxury aesthetic with gold accents and premium materials",
   "tech-forward design with futuristic elements and modern graphics",
   "natural and organic with earthy tones and authentic photography",
   "bold and striking with high contrast and dramatic lighting",
   "soft and feminine with pastel colors and gentle gradients",
   "urban and edgy with street style and contemporary design"]

/-- Composition table of `generateImagePrompt` (lines 620-633). -/
def promptCompositions : List String :=
  ["product centered with logo in top corner",
   "product on left, logo on right with text overlay",
   "product as hero image with logo integrated seamlessly",
   "split screen design with product and logo balanced",
   "product in foreground with logo in background",
   "logo prominent at top, product featured below",
   "product surrounded by logo elements",
   "minimalist layout with product and logo side by side",
   "product with logo watermark overlay",
   "dynamic diagonal composition with product and logo",
   "product showcase with logo in footer",
   "creative collage style with product and logo integrated"]

/-- `generateImagePrompt` (lines 604-639): modulo indexing into the two
fixed tables, rendered into the instruction template. -/
def generateImagePrompt (variationIndex : Nat) : String :=
  let style := (promptStyles.get? (variationIndex % promptStyles.length)).getD ""
  let composition :=
    (promptCompositions.get? (variationIndex % promptCompositions.length)).getD ""
  "Create an engaging ad creative featuring a brand logo and product image. Style: "
    ++ style ++ ". Composition: " ++ composition ++
    ". The design should be professional, eye-catching, and suitable for social media advertising. Include the product prominently while maintaining brand identity. High quality, commercial photography style, well-lit, professional composition, no text overlays, clean design."

/-- `NUM_VARIATIONS` (line 511), the unit count of a production request;
the loop itself is parametric in this bound. -/
def NUM_VARIATIONS : Nat := 1

/-- `path.join(__dirname, '..', 'temp_generations')` (line 517), resolved
relative to backend/services.  The path is computed from the module
location only. -/
def tempDir : String := "backend/temp_generations"

/-- The temp directory as a function of the request arguments: the
computation at line 517 never reads `logoPath` or `productPath`, so every
request shares one constant directory. -/
def tempDirOf (logoPath productPath : String) : String := tempDir

/-- `path.join(dir, name)`. -/
def pathJoin (dir name : String) : String := dir ++ "/" ++ name

/-- The image filename of unit `i` (line 544). -/
def imageFilenameOf (i : Nat) : String :=
  "creative-" ++ toString (i + 1) ++ ".jpg"

/-- The caption filename of unit `i` (line 552). -/
def captionFilenameOf (i : Nat) : String :=
  "creative-" ++ toString (i + 1) ++ ".txt"

/-- The object pushed onto `creatives` for a completed unit
(lines 556-561). -/
structure Creative where
  imagePath : String
  captionPath : String
  imageFilename : String
  captionFilename : String
deriving DecidableEq

/-- The creative object of unit `i` as the loop body builds it. -/
def mkCreative (i : Nat) : Creative :=
  { imagePath := pathJoin tempDir (imageFilenameOf i)
    captionPath := pathJoin tempDir (captionFilenameOf i)
    imageFilename := imageFilenameOf i
    captionFilename := captionFilenameOf i }

/-- Scripted environment of one loop iteration: the remote outcomes of the
image generation, the chat-completion content for the caption, and whether
the two local file writes (`sharp...toFile`, line 546, and
`fs.writeFileSync`, line 554) succeed. -/
structure UnitEnv where
  imageGen : ImageGenEnv
  chatContent : Option String
  sharpOk : Bool
  writeOk : Bool

/-- The temp directory contents, as the list of file paths present. -/
abbrev FS := List String

/-- Whether `generateImage` returns a buffer under this environment. -/
def imageGenOk (e : ImageGenEnv) : Bool :=
  match generateImageViaRouterImageToImage e with
  | .ok _ => true
  | .error _ => false

/-- All stages of one loop iteration succeed: image generation, the sharp
re-encode to disk and the caption file write.  Caption generation is total
and cannot fail a unit. -/
def unitSucceeds (ue : UnitEnv) : Bool :=
  imageGenOk ue.imageGen && ue.sharpOk && ue.writeOk

/-- One iteration of the per-unit loop body (lines 535-567): build the
prompt, generate the image, generate the caption, write the image file,
write the caption file, push the creative.  A throw at any stage is caught
at line 564 and yields `none` with whatever files were already written
(file contents are not modelled, only presence). -/
def runUnit (ue : UnitEnv) (i : Nat) (productBuffer : List Nat) (fs : FS) :
    Option Creative × FS :=
  let imagePrompt := generateImagePrompt i
  match generateImage ue.imageGen imagePrompt (some productBuffer) with
  | .error _ => (none, fs)
  | .ok _imageBuffer =>
    let _caption := generateCaption ue.chatContent
    if ue.sharpOk then
      let fs1 := fs ++ [pathJoin tempDir (imageFilenameOf i)]
      if ue.writeOk then
        (some (mkCreative i), fs1 ++ [pathJoin tempDir (captionFilenameOf i)])
      else (none, fs1)
    else (none, fs)

/-- The per-unit loop (lines 532-568) from unit index `i` for `k` more
units, collecting the creatives of the units that completed every stage. -/
def unitsFrom (envs : Nat → UnitEnv) (productBuffer : List Nat) :
    Nat → Nat → FS → List Creative × FS
  | _, 0, fs => ([], fs)
  | i, k + 1, fs =>
    match runUnit (envs i) i productBuffer fs with
    | (some c, fs1) =>
      let r := unitsFrom envs productBuffer (i + 1) k fs1
      (c :: r.1, r.2)
    | (none, fs1) => unitsFrom envs productBuffer (i + 1) k fs1

/-- `createZipFile` (lines 1003-1032): one archive entry per file added by
the forEach at lines 1025-1028, in order — for each creative the image file
under its image filename and the caption file under its caption filename.
An entry is recorded as (source path, entry name). -/
def createZipFile (creatives : List Creative) : List (String × String) :=
  creatives.flatMap fun c =>
    [(c.imagePath, c.imageFilename), (c.captionPath, c.captionFilename)]

/-- Scripted environment of one whole request: the outcome of reading the
two uploaded images (lines 526-527; an error aborts to the outer catch
carrying its message), the per-unit environments, and which unlink calls
succeed during cleanup. -/
structure GCEnv where
  readImages : Except String (List Nat × List Nat)
  units : Nat → UnitEnv
  delOk : String → Bool

/-- The outer catch cleanup (lines 590-596): an unlink is attempted for
every file present in the temp directory; a file disappears exactly when
its unlink succeeds, and unlink errors are swallowed. -/
def cleanupAll (delOk : String → Bool) (fs : FS) : FS :=
  fs.filter fun f => !(delOk f)

/-- Whether `f` is the image or caption path of one of the creatives. -/
def isCreativeFile (creatives : List Creative) (f : String) : Bool :=
  creatives.any fun c => c.imagePath == f || c.captionPath == f

/-- The success-path cleanup (lines 578-585): unlink only the two files of
each archived creative, swallowing unlink errors. -/
def unlinkCreatives (delOk : String → Bool) (creatives : List Creative)
    (fs : FS) : FS :=
  fs.filter fun f => !(isCreativeFile creatives f && delOk f)

/-- `generateCreatives` (lines 516-599) over a scripted environment, a unit
count and the initial temp-directory contents (which may include files
staged by other requests, since the directory is shared).  Returns the
result handed to the caller — the zip entry list or the rethrown error
message — together with the final directory contents.  The archiver stream
itself is modelled as total. -/
def generateCreatives (env : GCEnv) (numVariations : Nat) (fs0 : FS) :
    Except String (List (String × String)) × FS :=
  match env.readImages with
  | .error msg => (.error msg, cleanupAll env.delOk fs0)
  | .ok (_logoBuffer, productBuffer) =>
    let r := unitsFrom env.units productBuffer 0 numVariations fs0
    if r.1.isEmpty then
      (.error "Failed to generate any creatives", cleanupAll env.delOk r.2)
    else
      (.ok (createZipFile r.1), unlinkCreatives env.delOk r.1 r.2)

/-- The configured credential slots: up to three API keys plus the single
default credential used when a slot is unconfigured. -/
structure CredConfig where
  key1 : Option String
  key2 : Option String
  key3 : Option String
  fallbackKey : String

/-- Modelled from the spec: the multi-credential selector of the
orchestrator is not present in the source under src/, which retains only
the single `HF_API_KEY` declaration (creativeService.js line 480).
Following spec sections 4.1 and 8: unit indices 0-3 map to slot 1, 4-6 to
slot 2, 7 and above to slot 3, and an unconfigured slot falls back to the
single default credential. -/
def selectCredential (keys : CredConfig) (i : Nat) : String :=
  let slot :=
    if i < 4 then keys.key1
    else if i < 7 then keys.key2
    else keys.key3
  match slot with
  | some k => k
  | none => keys.fallbackKey

/-- The scripted status sequence of the specification:
processing, processing, HTTP 404, succeeded. -/
def scriptedResponses : Nat → PollResponse := fun i =>
  if i = 0 ∨ i = 1 then .ok ⟨"processing", [], none⟩
  else if i = 2 then .httpError 404 "Request failed with status code 404"
  else .ok ⟨"succeeded", [.str "http://images.example/out.jpg"], none⟩

/-- A poll sequence whose every status request fails with HTTP 403, a
non-retryable client error. -/
def fatalResponses : Nat → PollResponse := fun _ =>
  .httpError 403 "Request failed with status code 403"

/-- URL fetch returning a fixed byte for every URL. -/
def fetchConst : String → List Nat := fun _ => [42]

/-- Inline-payload decoder returning no bytes. -/
def decodeConst : String → List Nat := fun _ => []

/-- URL fetch distinguishing the two output URLs of the two-output
scenario. -/
def fetchAB : String → List Nat := fun s =>
  if s = "http://images.example/a.jpg" then [1]
  else if s = "http://images.example/b.jpg" then [2]
  else []

/-- A job that succeeds immediately with two output URLs. -/
def twoOutputsResponses : Nat → PollResponse := fun _ =>
  .ok ⟨"succeeded",
       [.str "http://images.example/a.jpg", .str "http://images.example/b.jpg"],
       none⟩

/-- An image-generation environment whose submission returns result bytes
synchronously. -/
def okImageGenEnv : ImageGenEnv :=
  { submit := .rawBuffer [7]
    poll := fun _ => .transportError "unused"
    fetch := fun _ => []
    decode := fun _ => []
    t2iResult := .error "unused" }

/-- An image-generation environment whose submission fails without a
response object. -/
def failImageGenEnv : ImageGenEnv :=
  { submit := .transportError "socket hang up"
    poll := fun _ => .transportError "unused"
    fetch := fun _ => []
    decode := fun _ => []
    t2iResult := .error "unused" }

/-- A unit whose every stage succeeds. -/
def okUnitEnv : UnitEnv :=
  { imageGen := okImageGenEnv
    chatContent := some "Grab yours today!"
    sharpOk := true
    writeOk := true }

/-- A unit whose image generation fails. -/
def failUnitEnv : UnitEnv :=
  { imageGen := failImageGenEnv
    chatContent := some "Grab yours today!"
    sharpOk := true
    writeOk := true }

/-- A three-unit request in which the middle unit fails. -/
def wEnvC4 : GCEnv :=
  { readImages := .ok ([1], [2])
    units := fun i => if i = 1 then failUnitEnv else okUnitEnv
    delOk := fun _ => true }

/-- A request in which every unit fails. -/
def wEnvC5 : GCEnv :=
  { readImages := .ok ([1], [2])
    units := fun _ => failUnitEnv
    delOk := fun _ => true }

/-- A request whose input-image read fails, with one undeletable file in
the shared temp directory. -/
def wEnvC10 : GCEnv :=
  { readImages := .error "ENOENT: no such file or directory"
    units := fun _ => okUnitEnv
    delOk := fun f => !(f == "backend/temp_generations/locked.tmp") }

/-- Exhausting the attempt budget with no terminal response times out after
exactly the budgeted number of attempts. -/
lemma pollForResult_timeout (fetch decode : String → List Nat)
    (responses : Nat → PollResponse) :
    ∀ (n attempt : Nat),
      (∀ i, attempt ≤ i → i < attempt + n →
        isTerminalResponse (responses i) = false) →
      pollForResult fetch decode responses attempt n = (.timedOut, n) := by
  intro n
  induction n with
  | zero => intro attempt _; rfl
  | succ m ih =>
    intro attempt h
    have h0 := h attempt (Nat.le_refl _) (by omega)
    have hrec := ih (attempt + 1) (fun i h1 h2 => h i (by omega) (by omega))
    cases hr : responses attempt with
    | httpError st msg =>
      rw [hr] at h0
      simp [isTerminalResponse] at h0
      rcases Nat.lt_or_ge st 500 with hlt | hge
      · rcases eq_or_ne st 404 with h404 | h404
        · simp [pollForResult, hr, h404, hrec]
        · have h401 : st = 401 := by omega
          simp [pollForResult, hr, h401, hrec]
      · have h404 : ¬ st = 404 := by omega
        have h401 : ¬ st = 401 := by omega
        simp [pollForResult, hr, h404, h401, hge, hrec]
    | transportError msg =>
      rw [hr] at h0
      simp [isTerminalResponse] at h0
    | ok p =>
      rw [hr] at h0
      simp [isTerminalResponse] at h0
      obtain ⟨⟨hc, hs⟩, hf, he⟩ := h0
      simp [pollForResult, hr, hc, hs, hf, he, hrec]

/-- C1: transient polling errors (HTTP 404, 401 or any 5xx status) do not
terminate the loop — the outcome is that of the remaining attempts, with
one more attempt counted — while a 4xx status other than 404/401 terminates
the poller immediately as a failure; and on the scripted response sequence
[processing, processing, 404, succeeded] the poller survives the 404 and
terminates SUCCEEDED on the fourth attempt. -/
theorem poll_transient_errors_continue_fatal_fail
    (fetch decode : String → List Nat) (responses : Nat → PollResponse)
    (attempt n st : Nat) (msg : String)
    (hresp : responses attempt = .httpError st msg) :
    ((st = 404 ∨ st = 401 ∨ 500 ≤ st) →
      pollForResult fetch decode responses attempt (n + 1)
        = ((pollForResult fetch decode responses (attempt + 1) n).1,
           (pollForResult fetch decode responses (attempt + 1) n).2 + 1))
  ∧ (400 ≤ st → st < 500 → st ≠ 404 → st ≠ 401 →
      pollForResult fetch decode responses attempt (n + 1)
        = (.failed msg (some st), 1))
  ∧ pollForJob fetchConst decodeConst scriptedResponses
      = (.succeeded [42], 4) := by
  refine ⟨?_, ?_, by decide⟩
  · intro h
    rcases h with h | h | h
    · simp [pollForResult, hresp, h]
    · simp [pollForResult, hresp, h]
    · have h404 : ¬ st = 404 := by omega
      have h401 : ¬ st = 401 := by omega
      simp [pollForResult, hresp, h404, h401, h]
  · intro _ hlt h404 h401
    have hge : ¬ 500 ≤ st := by omega
    simp [pollForResult, hresp, h404, h401, hge]

/-- Witness for C1: on the scripted sequence the 404 at attempt index 2
hands the outcome to the remaining attempts, and an all-403 sequence fails
on the very first attempt. -/
theorem poll_transient_errors_witness :
    pollForResult fetchConst decodeConst scriptedResponses 2 (57 + 1)
      = ((pollForResult fetchConst decodeConst scriptedResponses 3 57).1,
         (pollForResult fetchConst decodeConst scriptedResponses 3 57).2 + 1)
  ∧ pollForResult fetchConst decodeConst fatalResponses 0 (59 + 1)
      = (.failed "Request failed with status code 403" (some 403), 1) := by
  constructor
  · exact (poll_transient_errors_continue_fatal_fail fetchConst decodeConst
      scriptedResponses 2 57 404 "Request failed with status code 404"
      (by decide)).1 (Or.inl rfl)
  · exact (poll_transient_errors_continue_fatal_fail fetchConst decodeConst
      fatalResponses 0 59 403 "Request failed with status code 403"
      (by decide)).2.1 (by omega) (by omega) (by omega) (by omega)

/-- C2: when no poll attempt reports a terminal response — any HTTP 404/401
or 5xx error, and any payload whose status is outside the recognized
vocabulary, count as non-terminal — the poller performs exactly the fixed
ceiling of 60 attempts at the fixed 2000 ms interval and terminates
TIMED_OUT, a constructor distinct from SUCCEEDED and FAILED. -/
theorem poll_exhaustion_times_out (fetch decode : String → List Nat)
    (responses : Nat → PollResponse)
    (h : ∀ i, i < maxAttempts → isTerminalResponse (responses i) = false) :
    pollForJob fetch decode responses = (.timedOut, maxAttempts)
  ∧ maxAttempts = 60 ∧ pollInterval = 2000
  ∧ (∀ b, PollResult.timedOut ≠ PollResult.succeeded b)
  ∧ (∀ m os, PollResult.timedOut ≠ PollResult.failed m os) := by
  refine ⟨?_, rfl, rfl, ?_, ?_⟩
  · exact pollForResult_timeout fetch decode responses maxAttempts 0
      (fun i _ h2 => h i (by rwa [Nat.zero_add] at h2))
  · intro b hb; cases hb
  · intro m os hm; cases hm

/-- Witness for C2: sixty consecutive processing responses time out after
exactly 60 attempts. -/
theorem poll_exhaustion_witness :
    pollForJob fetchConst decodeConst (fun _ => .ok ⟨"processing", [], none⟩)
      = (.timedOut, maxAttempts) :=
  (poll_exhaustion_times_out fetchConst decodeConst
    (fun _ => .ok ⟨"processing", [], none⟩) (fun _ _ => rfl)).1

/-- Counterexample to C3 as stated: on a job that succeeds with TWO output
URLs resolving to [1] and [2], the poller returns only the resolution of
the first entry ([1]); resolving each output entry, as the claim describes,
would yield [[1], [2]], whose bytes ([1] followed by [2]) differ from what
is returned, and the second entry never appears in the result. -/
theorem poll_success_only_first_output_cex :
    (pollForJob fetchAB decodeConst twoOutputsResponses).1 = .succeeded [1]
  ∧ specResolveEachOutput fetchAB decodeConst
      [.str "http://images.example/a.jpg", .str "http://images.example/b.jpg"]
      = [[1], [2]]
  ∧ (PollResult.succeeded [1] ≠ PollResult.succeeded [1, 2])
  ∧ (PollResult.succeeded [1] ≠ PollResult.succeeded [2]) := by decide

/-- C3 amended: when a poll attempt reports status completed or succeeded
the poller terminates on that very attempt: with a non-empty outputs list
it reaches SUCCEEDED and resolves the FIRST output entry — an http(s) URL
is fetched, an inline data payload is decoded — into the returned bytes;
with an empty outputs list it fails hard rather than continuing to poll. -/
theorem poll_success_first_output (fetch decode : String → List Nat)
    (responses : Nat → PollResponse) (attempt n : Nat) (p : PollPayload)
    (hresp : responses attempt = .ok p)
    (hstat : p.status = "completed" ∨ p.status = "succeeded") :
    (p.outputs = [] →
      pollForResult fetch decode responses attempt (n + 1)
        = (.failed "Job completed but outputs array is empty" none, 1))
  ∧ (∀ s rest, p.outputs = .str s :: rest → strStarts "http" s = true →
      pollForResult fetch decode responses attempt (n + 1)
        = (.succeeded (fetch s), 1))
  ∧ (∀ s rest, p.outputs = .str s :: rest → strStarts "http" s = false →
      strStarts "data:" s = true →
      pollForResult fetch decode responses attempt (n + 1)
        = (.succeeded (decode (dataUriPayload s)), 1)) := by
  refine ⟨?_, ?_, ?_⟩
  · intro houts
    rcases hstat with h | h <;> simp [pollForResult, hresp, h, houts]
  · intro s rest houts hhttp
    rcases hstat with h | h <;> simp [pollForResult, hresp, h, houts, hhttp]
  · intro s rest houts hhttp hdata
    rcases hstat with h | h <;>
      simp [pollForResult, hresp, h, houts, hhttp, hdata]

/-- Witness for C3: the two-output job terminates on the first attempt with
the first URL fetched. -/
theorem poll_success_first_output_witness :
    pollForResult fetchAB decodeConst twoOutputsResponses 0 (59 + 1)
      = (.succeeded (fetchAB "http://images.example/a.jpg"), 1) :=
  (poll_success_first_output fetchAB decodeConst twoOutputsResponses 0 59
    ⟨"succeeded",
     [.str "http://images.example/a.jpg", .str "http://images.example/b.jpg"],
     none⟩ rfl (Or.inr rfl)).2.1
    "http://images.example/a.jpg" [.str "http://images.example/b.jpg"] rfl
    (by decide)

/-- C6: credential selection is a pure function of the unit index and the
configured slots — indices 0-3 use slot 1, indices 4-6 use slot 2, indices
7 and above use slot 3, each falling back to the single default credential
when the slot is unconfigured. -/
theorem credential_slot_mapping (keys : CredConfig) (i : Nat) :
    (i < 4 → selectCredential keys i = keys.key1.getD keys.fallbackKey)
  ∧ (4 ≤ i → i < 7 → selectCredential keys i = keys.key2.getD keys.fallbackKey)
  ∧ (7 ≤ i → selectCredential keys i = keys.key3.getD keys.fallbackKey) := by
  refine ⟨?_, ?_, ?_⟩
  · intro h1
    cases hk : keys.key1 <;> simp [selectCredential, h1, hk, Option.getD]
  · intro h4 h7
    have h1 : ¬ i < 4 := by omega
    cases hk : keys.key2 <;> simp [selectCredential, h1, h7, hk, Option.getD]
  · intro h7
    have h1 : ¬ i < 4 := by omega
    have h2 : ¬ i < 7 := by omega
    cases hk : keys.key3 <;> simp [selectCredential, h1, h2, hk, Option.getD]

/-- Witness for C6: with slots 1 and 2 configured and slot 3 empty, index 2
uses key 1, index 5 uses key 2 and index 9 falls back to the default. -/
theorem credential_slot_mapping_witness :
    selectCredential ⟨some "k1", some "k2", none, "fallback"⟩ 2 = "k1"
  ∧ selectCredential ⟨some "k1", some "k2", none, "fallback"⟩ 5 = "k2"
  ∧ selectCredential ⟨some "k1", some "k2", none, "fallback"⟩ 9 = "fallback" := by
  refine ⟨?_, ?_, ?_⟩
  · exact (credential_slot_mapping ⟨some "k1", some "k2", none, "fallback"⟩ 2).1
      (by omega)
  · exact (credential_slot_mapping ⟨some "k1", some "k2", none, "fallback"⟩ 5).2.1
      (by omega) (by omega)
  · exact (credential_slot_mapping ⟨some "k1", some "k2", none, "fallback"⟩ 9).2.2
      (by omega)

/-- Counterexample to C7 as stated: the cleanup chain of `generateCaption`
does not strip the leading options preamble, does not remove numbered-list
markers, and does not strip surrounding quotes — on the specification input
the preamble and both digit-dot markers survive, and a fully quoted caption
is returned with its quotes. -/
theorem caption_sanitizer_cex :
    generateCaption
        (some "Here are some options:\n1. Buy now! Shop today.\n2. Another one.")
      = "Here are some options: 1. Buy now! Shop today. 2. Another one."
  ∧ strStarts "Here are some options:"
      (generateCaption
        (some "Here are some options:\n1. Buy now! Shop today.\n2. Another one."))
      = true
  ∧ jsIncludes
      (generateCaption
        (some "Here are some options:\n1. Buy now! Shop today.\n2. Another one."))
      "1." = true
  ∧ generateCaption (some "\"Quoted caption\"") = "\"Quoted caption\"" := by
  decide

/-- C7 amended: the caption post-processor removes bracketed and
parenthetical asides (non-greedy, within one line), collapses each newline
run into a single space — so the result is always newline-free, a single
line — and trims; it does not strip options preambles, numbered-list
markers or surrounding quotes, and on the specification input it returns
the single-line string with the preamble and internal markers retained
(though the result does not begin with a digit-dot marker). -/
theorem caption_sanitizer_behavior :
    generateCaption
        (some "Here are some options:\n1. Buy now! Shop today.\n2. Another one.")
      = "Here are some options: 1. Buy now! Shop today. 2. Another one."
  ∧ generateCaption (some "Big sale [see terms] today (really)!")
      = "Big sale  today !"
  ∧ ∀ (b : Bool) (l : List Char), '\n' ∉ collapseNLAux b l := by
  refine ⟨by decide, by decide, ?_⟩
  intro b l
  induction l generalizing b with
  | nil => simp [collapseNLAux]
  | cons c rest ih =>
    rcases eq_or_ne c '\n' with hc | hc
    · subst hc
      cases b with
      | true => simpa [collapseNLAux] using ih true
      | false => simpa [collapseNLAux] using ih true
    · have hbeq : (c == '\n') = false := by simp [hc]
      simp [collapseNLAux, hbeq, Ne.symm hc]
      exact ih false

/-- C8: caption generation is total and never propagates an error: a failed
chat-completion request yields one fixed static fallback sentence, a
response whose cleaned text is empty yields the other, and any other
response yields its cleaned text — every result is one of these three. -/
theorem caption_never_raises (r : Option String) :
    (r = none → generateCaption r = fallbackCaptionError)
  ∧ (∀ c, r = some c → cleanCaption c = "" →
      generateCaption r = fallbackCaptionEmpty)
  ∧ (∀ c, r = some c → cleanCaption c ≠ "" →
      generateCaption r = cleanCaption c)
  ∧ (generateCaption r = fallbackCaptionError
      ∨ generateCaption r = fallbackCaptionEmpty
      ∨ ∃ c, r = some c ∧ generateCaption r = cleanCaption c) := by
  refine ⟨?_, ?_, ?_, ?_⟩
  · intro h; subst h; rfl
  · intro c h he; subst h; simp [generateCaption, he]
  · intro c h he; subst h; simp [generateCaption, he]
  · cases r with
    | none => exact Or.inl rfl
    | some c =>
      rcases eq_or_ne (cleanCaption c) "" with he | he
      · exact Or.inr (Or.inl (by simp [generateCaption, he]))
      · exact Or.inr (Or.inr ⟨c, rfl, by simp [generateCaption, he]⟩)

/-- Witness for C8: a failed request returns the static fallback and a
clean response returns its cleaned text. -/
theorem caption_never_raises_witness :
    generateCaption none = fallbackCaptionError
  ∧ generateCaption (some "Grab yours today!") = cleanCaption "Grab yours today!" := by
  constructor
  · exact (caption_never_raises none).1 rfl
  · exact (caption_never_raises (some "Grab yours today!")).2.2.1
      "Grab yours today!" rfl (by decide)

/-- C9: calling the image-generation entry point without a product buffer
fails with the wrapped message `Image generation failed: Product image is
required for image generation`, and the result is the same for every
remote environment — including every outcome of the unused text-to-image
helper — so no remote request influences (or is needed for) the failure. -/
theorem generateImage_requires_product_buffer (env env2 : ImageGenEnv)
    (prompt prompt2 : String) :
    generateImage env prompt none
      = .error "Image generation failed: Product image is required for image generation"
  ∧ generateImage env prompt none = generateImage env2 prompt2 none := by
  exact ⟨rfl, rfl⟩

/-- The creative produced by one loop iteration is determined by whether
every stage of the unit succeeded. -/
lemma runUnit_fst (ue : UnitEnv) (i : Nat) (buf : List Nat) (fs : FS) :
    (runUnit ue i buf fs).1
      = if unitSucceeds ue then some (mkCreative i) else none := by
  unfold runUnit unitSucceeds imageGenOk generateImage
  cases h : generateImageViaRouterImageToImage ue.imageGen <;>
    cases hs : ue.sharpOk <;> cases hw : ue.writeOk <;> simp [h, hs, hw]

/-- The per-unit loop collects exactly the creatives of the units whose
every stage succeeded, in index order, regardless of the failures of the
other units. -/
lemma unitsFrom_fst (envs : Nat → UnitEnv) (buf : List Nat) :
    ∀ (k i : Nat) (fs : FS),
      (unitsFrom envs buf i k fs).1
        = ((List.range' i k).filter fun j => unitSucceeds (envs j)).map
            mkCreative := by
  intro k
  induction k with
  | zero => intro i fs; simp [unitsFrom]
  | succ m ih =>
    intro i fs
    have hr := runUnit_fst (envs i) i buf fs
    rcases hru : runUnit (envs i) i buf fs with ⟨oc, fs1⟩
    rw [hru] at hr
    simp only at hr
    rw [List.range'_succ]
    by_cases hs : unitSucceeds (envs i)
    · rw [hs] at hr
      simp only [if_true] at hr
      subst hr
      simp [unitsFrom, hru, hs, ih]
    · rw [if_neg hs] at hr
      subst hr
      simp [unitsFrom, hru, hs, ih]

/-- Each creative contributes exactly two archive entries. -/
lemma createZipFile_length (creatives : List Creative) :
    (createZipFile creatives).length = 2 * creatives.length := by
  induction creatives with
  | nil => rfl
  | cons c rest ih => simp [createZipFile] at ih ⊢; omega

/-- C4: for every request with at least one fully successful unit, the
returned archive holds exactly one image entry and one caption entry per
successful unit — the entry list is precisely the image/caption pair of
each successful unit index in order, so its length is twice the number of
successful units and no failed unit contributes an entry. -/
theorem archive_one_pair_per_successful_unit (env : GCEnv) (n : Nat)
    (fs0 : FS) (logo product : List Nat)
    (hread : env.readImages = .ok (logo, product))
    (hn : 1 ≤ n)
    (hex : ∃ i, i < n ∧ unitSucceeds (env.units i) = true) :
    (generateCreatives env n fs0).1
      = .ok (createZipFile
          (((List.range n).filter fun j => unitSucceeds (env.units j)).map
            mkCreative))
  ∧ (createZipFile
        (((List.range n).filter fun j => unitSucceeds (env.units j)).map
          mkCreative)).length
      = 2 * ((List.range n).filter fun j => unitSucceeds (env.units j)).length := by
  have hfst := unitsFrom_fst env.units product n 0 fs0
  rw [← List.range_eq_range'] at hfst
  constructor
  · have hne :
        ((List.range n).filter fun j => unitSucceeds (env.units j)) ≠ [] := by
      obtain ⟨i, hi, hsi⟩ := hex
      intro hnil
      have hmem : i ∈ (List.range n).filter fun j => unitSucceeds (env.units j) := by
        rw [List.mem_filter]
        exact ⟨List.mem_range.mpr hi, hsi⟩
      rw [hnil] at hmem
      cases hmem
    simp [generateCreatives, hread, hfst, List.isEmpty_iff, hne]
  · rw [createZipFile_length, List.length_map]

/-- Witness for C4: three requested units with the middle one failing yield
an archive of exactly the two surviving image/caption pairs. -/
theorem archive_one_pair_witness :
    (generateCreatives wEnvC4 3 []).1
      = .ok (createZipFile
          (((List.range 3).filter fun j => unitSucceeds (wEnvC4.units j)).map
            mkCreative)) :=
  (archive_one_pair_per_successful_unit wEnvC4 3 [] [1] [2] rfl (by omega)
    ⟨0, by omega, by decide⟩).1

/-- C5: the loop drops failed units and keeps going — the collected
creatives are exactly those of the successful units, whatever the other
units did — and the request as a whole returns the terminal error if and
only if zero units succeeded; with at least one success it returns an
archive. -/
theorem per_unit_failure_isolated (env : GCEnv) (n : Nat) (fs0 : FS)
    (logo product : List Nat)
    (hread : env.readImages = .ok (logo, product)) :
    ((unitsFrom env.units product 0 n fs0).1
        = ((List.range n).filter fun j => unitSucceeds (env.units j)).map
            mkCreative)
  ∧ (((generateCreatives env n fs0).1
        = .error "Failed to generate any creatives")
      ↔ ∀ i, i < n → unitSucceeds (env.units i) = false)
  ∧ ((∃ i, i < n ∧ unitSucceeds (env.units i) = true) →
      ∃ z, (generateCreatives env n fs0).1 = .ok z) := by
  have hfst := unitsFrom_fst env.units product n 0 fs0
  rw [← List.range_eq_range'] at hfst
  refine ⟨hfst, ?_, ?_⟩
  · by_cases hnil :
        ((List.range n).filter fun j => unitSucceeds (env.units j)) = []
    · have hall : ∀ i, i < n → unitSucceeds (env.units i) = false := by
        intro i hi
        by_contra hne
        have hmem : i ∈ (List.range n).filter fun j => unitSucceeds (env.units j) := by
          rw [List.mem_filter]
          exact ⟨List.mem_range.mpr hi, by simpa using hne⟩
        rw [hnil] at hmem
        cases hmem
      simp [generateCreatives, hread, hfst, List.isEmpty_iff, hnil]
      exact hall
    · have hnotall : ¬ ∀ i, i < n → unitSucceeds (env.units i) = false := by
        intro hall
        apply hnil
        rw [List.filter_eq_nil_iff]
        intro a ha
        simp [hall a (List.mem_range.mp ha)]
      simp [generateCreatives, hread, hfst, List.isEmpty_iff, hnil, hnotall]
  · intro hex
    have hne :
        ((List.range n).filter fun j => unitSucceeds (env.units j)) ≠ [] := by
      obtain ⟨i, hi, hsi⟩ := hex
      intro hnil
      have hmem : i ∈ (List.range n).filter fun j => unitSucceeds (env.units j) := by
        rw [List.mem_filter]
        exact ⟨List.mem_range.mpr hi, hsi⟩
      rw [hnil] at hmem
      cases hmem
    refine ⟨createZipFile
      (((List.range n).filter fun j => unitSucceeds (env.units j)).map
        mkCreative), ?_⟩
    simp [generateCreatives, hread, hfst, List.isEmpty_iff, hne]

/-- Witness for C5: a two-unit request in which both units fail returns the
terminal error. -/
theorem per_unit_failure_witness :
    (generateCreatives wEnvC5 2 []).1 = .error "Failed to generate any creatives" :=
  ((per_unit_failure_isolated wEnvC5 2 [] [1] [2] rfl).2.1).mpr
    (fun _ _ => rfl)

/-- C10: the temp directory is one constant path shared by every request;
when an error escapes the per-unit loop (a failed input read, or zero
successful units) the error is rethrown and an unlink is attempted for
every file then present in that directory — files of other requests
included — with each individual unlink failure swallowed, leaving exactly
the files whose unlink failed; in particular any file staged by another
request whose unlink succeeds is gone. -/
theorem cleanup_on_error_deletes_tempdir (env : GCEnv) (n : Nat) (fs0 : FS) :
    (∀ a b c d : String, tempDirOf a b = tempDirOf c d)
  ∧ (∀ msg, env.readImages = .error msg →
      generateCreatives env n fs0
        = (.error msg, fs0.filter fun f => !(env.delOk f)))
  ∧ (∀ logo product, env.readImages = .ok (logo, product) →
      (∀ i, i < n → unitSucceeds (env.units i) = false) →
      generateCreatives env n fs0
        = (.error "Failed to generate any creatives",
           (unitsFrom env.units product 0 n fs0).2.filter
             fun f => !(env.delOk f)))
  ∧ (∀ msg staged, env.readImages = .error msg → staged ∈ fs0 →
      env.delOk staged = true →
      staged ∉ (generateCreatives env n fs0).2) := by
  refine ⟨fun _ _ _ _ => rfl, ?_, ?_, ?_⟩
  · intro msg h
    simp [generateCreatives, h, cleanupAll]
  · intro logo product hread hall
    have hfst := unitsFrom_fst env.units product n 0 fs0
    rw [← List.range_eq_range'] at hfst
    have hnil :
        ((List.range n).filter fun j => unitSucceeds (env.units j)) = [] := by
      rw [List.filter_eq_nil_iff]
      intro a ha
      simp [hall a (List.mem_range.mp ha)]
    simp [generateCreatives, hread, hfst, List.isEmpty_iff, hnil, cleanupAll]
  · intro msg staged h hmem hdel
    simp [generateCreatives, h, cleanupAll, List.mem_filter, hdel]

/-- Witness for C10: a request whose input read fails deletes the file
staged by another request and leaves only the file whose unlink failed,
while rethrowing the read error. -/
theorem cleanup_on_error_witness :
    generateCreatives wEnvC10 1
        ["backend/temp_generations/other-request.jpg",
         "backend/temp_generations/locked.tmp"]
      = (.error "ENOENT: no such file or directory",
         ["backend/temp_generations/locked.tmp"])
  ∧ "backend/temp_generations/other-request.jpg"
      ∉ (generateCreatives wEnvC10 1
          ["backend/temp_generations/other-request.jpg",
           "backend/temp_generations/locked.tmp"]).2 := by
  constructor
  · rw [(cleanup_on_error_deletes_tempdir wEnvC10 1
      ["backend/temp_generations/other-request.jpg",
       "backend/temp_generations/locked.tmp"]).2.1
      "ENOENT: no such file or directory" rfl]
    rfl
  · exact (cleanup_on_error_deletes_tempdir wEnvC10 1
      ["backend/temp_generations/other-request.jpg",
       "backend/temp_generations/locked.tmp"]).2.2.2
      "ENOENT: no such file or directory"
      "backend/temp_generations/other-request.jpg" rfl (by decide) (by decide)

end CreativeService
